import Mathlib

/-!
Verification of the `HockeyEnv` simulation environment defined in
`alternative_train.py` (`create_hockey_environment`).

The environment is a small episodic simulation: a goalie (2D position),
a puck (2D position and velocity), a step counter and a step limit.
`reset` places the goalie at the origin and the puck at (-5, 0) with
forward velocity 2.0 and a randomly drawn lateral velocity; `step`
moves the goalie by `action * 0.1` (then clamps the goalie position to
the arena box), advances the puck by `velocity * 0.02`, applies friction
`velocity *= 0.99`, computes a proximity shaping reward, classifies the
step as MISS / GOAL / SAVE via a priority chain, and finally overrides
everything with TIMEOUT when the incremented step counter reaches the
step limit.

Real arithmetic in the Python source (numpy floats) is embedded as exact
real-number arithmetic (`ℝ`); `np.linalg.norm` is `Real.sqrt` of the sum
of squares.
-/

namespace NeuralRink

/-- Terminal outcome labels, exactly the strings the source writes into
`info['result']`. -/
inductive Outcome where
  | miss
  | goal
  | save
  | timeout
deriving DecidableEq

/-- The mutable fields of `HockeyEnv`: `self.goalie_pos` (x, z),
`self.puck_pos` (x, z), `self.puck_vel` (x, z), `self.episode_step` and
`self.max_steps`.  (`self.puck_shot` is set by `reset` and never read,
so it is omitted.) -/
structure EnvState where
  goalieX : ℝ
  goalieZ : ℝ
  puckX : ℝ
  puckZ : ℝ
  velX : ℝ
  velZ : ℝ
  episodeStep : ℕ
  maxSteps : ℕ

/-- The tuple returned by `HockeyEnv.step` (minus the observation, which
is `getObservation` of the new state): new state, reward, `done` flag
and the optional `info['result']` label. -/
structure StepResult where
  state : EnvState
  reward : ℝ
  done : Bool
  result : Option Outcome

/-- `np.clip x lo hi = min (max x lo) hi`. -/
def clip (x lo hi : ℝ) : ℝ := min (max x lo) hi

/-- `HockeyEnv.reset`.  The `seed` argument is forwarded to
`super().reset(seed=seed)`, which seeds the (otherwise unused)
`self.np_random`; the lateral puck velocity is then drawn by
`np.random.uniform(-0.5, 0.5)` from the *process-global* numpy
generator, modelled here by the explicit `gDraw` argument.  The body
never reads `seed`. -/
def reset (seed : ℕ) (gDraw : ℝ) : EnvState :=
  { goalieX := 0
    goalieZ := 0
    puckX := -5.0
    puckZ := 0
    velX := 2.0
    velZ := gDraw
    episodeStep := 0
    maxSteps := 300 }

/-- `HockeyEnv._check_save`: distance from goalie to puck below 1.0 and
the puck inside the goal area (`puck_pos[0] > 6 and abs(puck_pos[1]) < 1.0`). -/
noncomputable def check_save (goaliePos puckPos : ℝ × ℝ) : Prop :=
  Real.sqrt ((puckPos.1 - goaliePos.1) ^ 2 + (puckPos.2 - goaliePos.2) ^ 2) < 1.0 ∧
    (puckPos.1 > 6 ∧ |puckPos.2| < 1.0)

noncomputable instance (g p : ℝ × ℝ) : Decidable (check_save g p) := by
  unfold check_save; infer_instance

/-- `HockeyEnv._get_observation`: 6 live features followed by 6 zero
placeholders. -/
def getObservation (s : EnvState) : List ℝ :=
  [s.goalieX, s.goalieZ, s.puckX, s.puckZ, s.velX, s.velZ,
    0.0, 0.0, 0.0, 0.0, 0.0, 0.0]

/-- `HockeyEnv.step` for action `(ax, az)`:
goalie moves by `action * 0.1` and is clamped to `[-2,2] × [-1.5,1.5]`;
puck advances by `vel * 0.02`; friction multiplies the velocity by 0.99;
the shaping reward is `reward = 0; reward += max(0, 10 - distance) * 0.1`;
the `if/elif/elif` chain classifies MISS / GOAL / SAVE; afterwards the
incremented step counter triggers an unconditional TIMEOUT override once
it reaches `max_steps`. -/
noncomputable def stepEnv (s : EnvState) (ax az : ℝ) : StepResult :=
  let gx := clip (s.goalieX + ax * 0.1) (-2.0) 2.0
  let gz := clip (s.goalieZ + az * 0.1) (-1.5) 1.5
  let px := s.puckX + s.velX * 0.02
  let pz := s.puckZ + s.velZ * 0.02
  let vx := s.velX * 0.99
  let vz := s.velZ * 0.99
  let shaped := 0 + max 0 (10 - Real.sqrt ((px - gx) ^ 2 + (pz - gz) ^ 2)) * 0.1
  let base : ℝ × Bool × Option Outcome :=
    if |px| > 8 then (50, true, some Outcome.miss)
    else if |pz| < 0.5 ∧ px > 7 then (-200, true, some Outcome.goal)
    else if check_save (gx, gz) (px, pz) then (200, true, some Outcome.save)
    else (shaped, false, none)
  let n := s.episodeStep + 1
  let out : ℝ × Bool × Option Outcome :=
    if n ≥ s.maxSteps then (-10, true, some Outcome.timeout) else base
  { state :=
      { goalieX := gx, goalieZ := gz, puckX := px, puckZ := pz,
        velX := vx, velZ := vz, episodeStep := n, maxSteps := s.maxSteps }
    reward := out.1
    done := out.2.1
    result := out.2.2 }

/-- Distance between puck and goalie in a state (the quantity the source
computes as `np.linalg.norm(self.puck_pos - self.goalie_pos)`). -/
noncomputable def distPuckGoalie (s : EnvState) : ℝ :=
  Real.sqrt ((s.puckX - s.goalieX) ^ 2 + (s.puckZ - s.goalieZ) ^ 2)

/-- Iterating `step` from an initial state along an action sequence. -/
noncomputable def runFrom (s0 : EnvState) (acts : ℕ → ℝ × ℝ) : ℕ → EnvState
  | 0 => s0
  | n + 1 => (stepEnv (runFrom s0 acts n) (acts n).1 (acts n).2).state

/-- The full result of the (n+1)-st `step` call in a run. -/
noncomputable def stepOutAt (s0 : EnvState) (acts : ℕ → ℝ × ℝ) (n : ℕ) : StepResult :=
  stepEnv (runFrom s0 acts n) (acts n).1 (acts n).2

/-- The all-zero action sequence. -/
def zeroActs : ℕ → ℝ × ℝ := fun _ => (0, 0)

/-! ### Basic projection lemmas for `stepEnv` -/

lemma stepEnv_goalieX (s : EnvState) (ax az : ℝ) :
    (stepEnv s ax az).state.goalieX = clip (s.goalieX + ax * 0.1) (-2.0) 2.0 := rfl

lemma stepEnv_goalieZ (s : EnvState) (ax az : ℝ) :
    (stepEnv s ax az).state.goalieZ = clip (s.goalieZ + az * 0.1) (-1.5) 1.5 := rfl

lemma stepEnv_puckX (s : EnvState) (ax az : ℝ) :
    (stepEnv s ax az).state.puckX = s.puckX + s.velX * 0.02 := rfl

lemma stepEnv_velX (s : EnvState) (ax az : ℝ) :
    (stepEnv s ax az).state.velX = s.velX * 0.99 := rfl

lemma stepEnv_episodeStep (s : EnvState) (ax az : ℝ) :
    (stepEnv s ax az).state.episodeStep = s.episodeStep + 1 := rfl

lemma stepEnv_maxSteps (s : EnvState) (ax az : ℝ) :
    (stepEnv s ax az).state.maxSteps = s.maxSteps := rfl

/-! ### Branch lemmas for the reward / done / result part of `stepEnv` -/

/-- Once the incremented step counter reaches `max_steps`, the step's
reward, done flag and result are unconditionally the TIMEOUT ones. -/
lemma stepEnv_timeout (s : EnvState) (ax az : ℝ)
    (h : s.maxSteps ≤ s.episodeStep + 1) :
    (stepEnv s ax az).result = some Outcome.timeout ∧
      (stepEnv s ax az).reward = -10 ∧ (stepEnv s ax az).done = true := by
  unfold stepEnv
  simp only [ge_iff_le, if_pos h]
  simp

/-- Below the step limit and with the puck strictly left of x = 6 (so that
none of MISS, GOAL, SAVE can fire), the step is non-terminal and its reward
is the shaping reward. -/
lemma stepEnv_active (s : EnvState) (ax az : ℝ)
    (hn : s.episodeStep + 1 < s.maxSteps)
    (hlo : -8 ≤ s.puckX + s.velX * 0.02)
    (hhi : s.puckX + s.velX * 0.02 ≤ 6) :
    (stepEnv s ax az).result = none ∧ (stepEnv s ax az).done = false ∧
      (stepEnv s ax az).reward =
        max 0 (10 - distPuckGoalie (stepEnv s ax az).state) * 0.1 := by
  have hmiss : ¬ |s.puckX + s.velX * 0.02| > 8 := by
    rw [not_lt, abs_le]; constructor <;> linarith
  have hgoal : ¬ (|s.puckZ + s.velZ * 0.02| < 0.5 ∧ s.puckX + s.velX * 0.02 > 7) := by
    rintro ⟨-, h7⟩; linarith
  have hsave : ¬ check_save
      (clip (s.goalieX + ax * 0.1) (-2.0) 2.0, clip (s.goalieZ + az * 0.1) (-1.5) 1.5)
      (s.puckX + s.velX * 0.02, s.puckZ + s.velZ * 0.02) := by
    rintro ⟨-, h6, -⟩
    simp only at h6
    linarith
  have hn' : ¬ s.episodeStep + 1 ≥ s.maxSteps := by omega
  unfold stepEnv
  simp only [ge_iff_le, if_neg hmiss, if_neg hgoal, if_neg hsave]
  rw [if_neg (by omega : ¬ s.maxSteps ≤ s.episodeStep + 1)]
  refine ⟨rfl, rfl, ?_⟩
  show (0:ℝ) + max 0 (10 - Real.sqrt _) * 0.1 = _
  rw [zero_add]
  rfl

/-! ### Trajectory lemmas: closed forms along a run started by `reset` -/

lemma runFrom_succ (s0 : EnvState) (acts : ℕ → ℝ × ℝ) (n : ℕ) :
    runFrom s0 acts (n + 1) =
      (stepEnv (runFrom s0 acts n) (acts n).1 (acts n).2).state := rfl

lemma runFrom_episodeStep (s0 : EnvState) (acts : ℕ → ℝ × ℝ) :
    ∀ n, (runFrom s0 acts n).episodeStep = s0.episodeStep + n
  | 0 => rfl
  | n + 1 => by
      rw [runFrom_succ, stepEnv_episodeStep, runFrom_episodeStep s0 acts n]
      omega

lemma runFrom_maxSteps (s0 : EnvState) (acts : ℕ → ℝ × ℝ) :
    ∀ n, (runFrom s0 acts n).maxSteps = s0.maxSteps
  | 0 => rfl
  | n + 1 => by
      rw [runFrom_succ, stepEnv_maxSteps, runFrom_maxSteps s0 acts n]

lemma resetRun_velX (seed : ℕ) (gDraw : ℝ) (acts : ℕ → ℝ × ℝ) :
    ∀ n, (runFrom (reset seed gDraw) acts n).velX = 2 * 0.99 ^ n
  | 0 => by simp [runFrom, reset]; norm_num
  | n + 1 => by
      rw [runFrom_succ, stepEnv_velX, resetRun_velX seed gDraw acts n]
      ring

lemma resetRun_puckX (seed : ℕ) (gDraw : ℝ) (acts : ℕ → ℝ × ℝ) :
    ∀ n, (runFrom (reset seed gDraw) acts n).puckX = -5 + 4 * (1 - 0.99 ^ n)
  | 0 => by simp [runFrom, reset]; norm_num
  | n + 1 => by
      rw [runFrom_succ, stepEnv_puckX, resetRun_puckX seed gDraw acts n,
        resetRun_velX seed gDraw acts n]
      ring

lemma q_pow_pos (n : ℕ) : (0:ℝ) < 0.99 ^ n :=
  pow_pos (by norm_num) n

lemma q_pow_le_one (n : ℕ) : (0.99:ℝ) ^ n ≤ 1 := by
  induction n with
  | zero => norm_num
  | succ n ih =>
      have h := q_pow_pos n
      calc (0.99:ℝ) ^ (n + 1) = 0.99 ^ n * 0.99 := by ring
        _ ≤ 1 * 1 := by nlinarith
        _ = 1 := by norm_num

/-- Along any run from a reset state, the puck's x coordinate stays in
`[-5, -1)`: the travelled distance is bounded by the geometric series
`2 * 0.02 * Σ 0.99^k = 4`. -/
lemma resetRun_puckX_bounds (seed : ℕ) (gDraw : ℝ) (acts : ℕ → ℝ × ℝ) (n : ℕ) :
    -5 ≤ (runFrom (reset seed gDraw) acts n).puckX ∧
      (runFrom (reset seed gDraw) acts n).puckX < -1 := by
  rw [resetRun_puckX]
  have h1 := q_pow_pos n
  have h2 := q_pow_le_one n
  constructor <;> nlinarith

/-! ### Clip lemmas -/

lemma clip_le_hi (x lo hi : ℝ) : clip x lo hi ≤ hi := min_le_right _ _

lemma lo_le_clip (x lo hi : ℝ) (h : lo ≤ hi) : lo ≤ clip x lo hi :=
  le_min (le_max_right _ _) h

/-- The clamped position moves away from an in-bounds point by at most the
raw displacement. -/
lemma abs_clip_sub_le (g d lo hi : ℝ) (h1 : lo ≤ g) (h2 : g ≤ hi) :
    |clip (g + d) lo hi - g| ≤ |d| := by
  have hub : clip (g + d) lo hi ≤ g + |d| := by
    refine le_trans (min_le_left _ _) (max_le ?_ ?_)
    · have := le_abs_self d; linarith
    · have := abs_nonneg d; linarith
  have hlb : g - |d| ≤ clip (g + d) lo hi := by
    refine le_min (le_trans ?_ (le_max_left _ _)) ?_
    · have := neg_abs_le d; linarith
    · have := abs_nonneg d; linarith
  rw [abs_le]
  constructor <;> linarith

/-! ### Save impossibility -/

/-- The Euclidean distance dominates the x-axis separation. -/
lemma dx_le_dist (dx dz : ℝ) : dx ≤ Real.sqrt (dx ^ 2 + dz ^ 2) := by
  calc dx ≤ |dx| := le_abs_self dx
    _ = Real.sqrt (dx ^ 2) := (Real.sqrt_sq_eq_abs dx).symm
    _ ≤ Real.sqrt (dx ^ 2 + dz ^ 2) :=
        Real.sqrt_le_sqrt (by nlinarith [sq_nonneg dz])

/-- With the goalie at x ≤ 2, `_check_save` cannot hold: it requires the
puck at x > 6 within distance 1 of the goalie, but the distance is already
above 4. -/
lemma check_save_impossible (g p : ℝ × ℝ) (hg : g.1 ≤ 2) : ¬ check_save g p := by
  rintro ⟨hdist, h6, -⟩
  have hsep : p.1 - g.1 ≤ Real.sqrt ((p.1 - g.1) ^ 2 + (p.2 - g.2) ^ 2) :=
    dx_le_dist _ _
  have h1 : (1.0:ℝ) = 1 := by norm_num
  rw [h1] at hdist
  nlinarith

/-- `step` can never report the SAVE outcome: the in-step clamp keeps the
goalie at x ≤ 2, which contradicts `_check_save`. -/
lemma stepEnv_result_ne_save (s : EnvState) (ax az : ℝ) :
    (stepEnv s ax az).result ≠ some Outcome.save := by
  have hs : ¬ check_save
      (clip (s.goalieX + ax * 0.1) (-2.0) 2.0, clip (s.goalieZ + az * 0.1) (-1.5) 1.5)
      (s.puckX + s.velX * 0.02, s.puckZ + s.velZ * 0.02) := by
    apply check_save_impossible
    have := clip_le_hi (s.goalieX + ax * 0.1) (-2.0) 2.0
    exact this.trans_eq (by norm_num)
  unfold stepEnv
  simp only [ge_iff_le, if_neg hs]
  split_ifs <;> simp

/-- Along a reset run, a step below the step limit is non-terminal: the
puck never reaches any of the MISS / GOAL / SAVE regions. -/
lemma resetRun_stepOut_active (seed : ℕ) (gDraw : ℝ) (acts : ℕ → ℝ × ℝ)
    (n : ℕ) (h : n + 1 < 300) :
    (stepOutAt (reset seed gDraw) acts n).result = none ∧
      (stepOutAt (reset seed gDraw) acts n).done = false := by
  have hb := resetRun_puckX_bounds seed gDraw acts (n + 1)
  rw [runFrom_succ, stepEnv_puckX] at hb
  have hms : (runFrom (reset seed gDraw) acts n).maxSteps = 300 :=
    runFrom_maxSteps _ _ n
  have hes : (runFrom (reset seed gDraw) acts n).episodeStep = n := by
    have := runFrom_episodeStep (reset seed gDraw) acts n
    simpa [reset] using this
  have hact := stepEnv_active (runFrom (reset seed gDraw) acts n)
    (acts n).1 (acts n).2 (by rw [hes, hms]; omega)
    (by linarith [hb.1]) (by linarith [hb.2])
  exact ⟨hact.1, hact.2.1⟩

/-- Along a reset run, the 300-th step call reports TIMEOUT with reward −10. -/
lemma resetRun_stepOut_timeout (seed : ℕ) (gDraw : ℝ) (acts : ℕ → ℝ × ℝ)
    (n : ℕ) (h : 299 ≤ n) :
    (stepOutAt (reset seed gDraw) acts n).result = some Outcome.timeout ∧
      (stepOutAt (reset seed gDraw) acts n).reward = -10 ∧
      (stepOutAt (reset seed gDraw) acts n).done = true := by
  have hms : (runFrom (reset seed gDraw) acts n).maxSteps = 300 :=
    runFrom_maxSteps _ _ n
  have hes : (runFrom (reset seed gDraw) acts n).episodeStep = n := by
    have := runFrom_episodeStep (reset seed gDraw) acts n
    simpa [reset] using this
  exact stepEnv_timeout _ _ _ (by rw [hes, hms]; omega)

/-! ### Claim theorems -/

/-- C1: on every call to `step`, whenever the incremented step counter
reaches `max_steps`, the outcome, reward and terminal flag are
unconditionally overwritten to TIMEOUT / −10 / true — the step-limit
check runs after the MISS/GOAL/SAVE priority evaluation and overrides
whatever that evaluation produced. -/
theorem C1_timeout_override (s : EnvState) (ax az : ℝ)
    (h : s.maxSteps ≤ s.episodeStep + 1) :
    (stepEnv s ax az).result = some Outcome.timeout ∧
      (stepEnv s ax az).reward = -10 ∧ (stepEnv s ax az).done = true :=
  stepEnv_timeout s ax az h

/-- Witness for C1 at a concrete state where the MISS condition also
holds on the same step (puck at x = 10, step counter 299 of 300): the
outcome is still TIMEOUT with reward −10. -/
theorem C1_timeout_override_witness :
    ((300:ℕ) ≤ 299 + 1 ∧ (8:ℝ) < |(10:ℝ) + 0 * 0.02|) ∧
      ((stepEnv ⟨0, 0, 10, 2, 0, 0, 299, 300⟩ 0 0).result = some Outcome.timeout ∧
        (stepEnv ⟨0, 0, 10, 2, 0, 0, 299, 300⟩ 0 0).reward = -10 ∧
        (stepEnv ⟨0, 0, 10, 2, 0, 0, 299, 300⟩ 0 0).done = true) :=
  ⟨⟨by norm_num, by norm_num⟩,
    C1_timeout_override ⟨0, 0, 10, 2, 0, 0, 299, 300⟩ 0 0 (by norm_num)⟩

/-- C2: from every reset state and for every action sequence, the puck's
x coordinate stays in [-5, -1) (the travelled distance is bounded by the
geometric series 2·0.02·Σ0.99ᵏ = 4), so MISS/GOAL/SAVE never fire, every
step before the 300-th is non-terminal, and the 300-th step terminates
the episode with TIMEOUT and reward −10. -/
theorem C2_every_episode_times_out (seed : ℕ) (gDraw : ℝ) (acts : ℕ → ℝ × ℝ) :
    (∀ n, -5 ≤ (runFrom (reset seed gDraw) acts n).puckX ∧
          (runFrom (reset seed gDraw) acts n).puckX < -1) ∧
    (∀ n, n + 1 < 300 →
      (stepOutAt (reset seed gDraw) acts n).result = none ∧
        (stepOutAt (reset seed gDraw) acts n).done = false) ∧
    ((stepOutAt (reset seed gDraw) acts 299).result = some Outcome.timeout ∧
      (stepOutAt (reset seed gDraw) acts 299).reward = -10 ∧
      (stepOutAt (reset seed gDraw) acts 299).done = true) :=
  ⟨fun n => resetRun_puckX_bounds seed gDraw acts n,
   fun n h => resetRun_stepOut_active seed gDraw acts n h,
   resetRun_stepOut_timeout seed gDraw acts 299 (le_refl _)⟩

/-- Witness for C2: the first step of the all-zero run is non-terminal. -/
theorem C2_every_episode_times_out_witness :
    (0:ℕ) + 1 < 300 ∧
      ((stepOutAt (reset 0 0) zeroActs 0).result = none ∧
        (stepOutAt (reset 0 0) zeroActs 0).done = false) :=
  ⟨by norm_num, (C2_every_episode_times_out 0 0 zeroActs).2.1 0 (by norm_num)⟩

/-- C7: after every call to `step`, for arbitrary (unclamped) actions,
the goalie position lies in [-2, 2] × [-1.5, 1.5]. -/
theorem C7_goalie_bounds (s : EnvState) (ax az : ℝ) :
    -2.0 ≤ (stepEnv s ax az).state.goalieX ∧
      (stepEnv s ax az).state.goalieX ≤ 2.0 ∧
      -1.5 ≤ (stepEnv s ax az).state.goalieZ ∧
      (stepEnv s ax az).state.goalieZ ≤ 1.5 := by
  rw [stepEnv_goalieX, stepEnv_goalieZ]
  exact ⟨lo_le_clip _ _ _ (by norm_num), clip_le_hi _ _ _,
    lo_le_clip _ _ _ (by norm_num), clip_le_hi _ _ _⟩

/-- C8: the SAVE outcome is unreachable.  With the goalie clamped to
x ≤ 2, `_check_save` (puck x > 6 within distance 1) is unsatisfiable, and
consequently `step` never returns the result 'save'. -/
theorem C8_save_unreachable (s : EnvState) (ax az : ℝ) :
    (∀ g p : ℝ × ℝ, g.1 ≤ 2 → ¬ check_save g p) ∧
      (stepEnv s ax az).result ≠ some Outcome.save :=
  ⟨fun g p hg => check_save_impossible g p hg, stepEnv_result_ne_save s ax az⟩

/-- Witness for C8 at the concrete goalie (2, 0) and puck (7, 0). -/
theorem C8_save_unreachable_witness :
    (((2:ℝ), (0:ℝ)) : ℝ × ℝ).1 ≤ 2 ∧ ¬ check_save (2, 0) (7, 0) :=
  ⟨by norm_num, (C8_save_unreachable (reset 0 0) 0 0).1 (2, 0) (7, 0) (by norm_num)⟩

/-- C9: the observation of any state has exactly 12 elements; indices
0–5 are goalie x, goalie z, puck x, puck z, puck-velocity x,
puck-velocity z, and indices 6–11 are 0. -/
theorem C9_observation_shape (s : EnvState) :
    (getObservation s).length = 12 ∧
      (getObservation s).getD 0 0 = s.goalieX ∧
      (getObservation s).getD 1 0 = s.goalieZ ∧
      (getObservation s).getD 2 0 = s.puckX ∧
      (getObservation s).getD 3 0 = s.puckZ ∧
      (getObservation s).getD 4 0 = s.velX ∧
      (getObservation s).getD 5 0 = s.velZ ∧
      (getObservation s).getD 6 0 = 0 ∧
      (getObservation s).getD 7 0 = 0 ∧
      (getObservation s).getD 8 0 = 0 ∧
      (getObservation s).getD 9 0 = 0 ∧
      (getObservation s).getD 10 0 = 0 ∧
      (getObservation s).getD 11 0 = 0 := by
  refine ⟨rfl, rfl, rfl, rfl, rfl, rfl, rfl, ?_, ?_, ?_, ?_, ?_, ?_⟩ <;>
    norm_num [getObservation]

/-- C10: the step counter starts at 0 and increases by exactly 1 per
step, and the 300-th (and any later) step call returns a true terminal
flag — no episode exceeds `max_steps` = 300 steps. -/
theorem C10_episode_terminates (seed : ℕ) (gDraw : ℝ) (acts : ℕ → ℝ × ℝ) :
    (∀ n, (runFrom (reset seed gDraw) acts n).episodeStep = n) ∧
      (∀ n, 299 ≤ n → (stepOutAt (reset seed gDraw) acts n).done = true) := by
  constructor
  · intro n
    have := runFrom_episodeStep (reset seed gDraw) acts n
    simpa [reset] using this
  · intro n h
    exact (resetRun_stepOut_timeout seed gDraw acts n h).2.2

/-- Witness for C10: the 300-th step of the all-zero run reports done. -/
theorem C10_episode_terminates_witness :
    (299:ℕ) ≤ 299 ∧ (stepOutAt (reset 0 0) zeroActs 299).done = true :=
  ⟨le_refl _, (C10_episode_terminates 0 0 zeroActs).2 299 (le_refl _)⟩

/-- C3 (code bug): the lateral puck velocity drawn on `reset` is *not* a
function of the seed — it is read from the process-global numpy stream.
With the same seed 42 but two different global-stream values, the reset
observations differ (at index 5, the puck's lateral velocity). -/
theorem C3_seed_divergence :
    getObservation (reset 42 0) ≠ getObservation (reset 42 0.25) := by
  simp only [getObservation, reset, ne_eq, List.cons.injEq, and_true, true_and]
  norm_num

/-- C4 fails on the code: the action is never clamped — only the
resulting goalie position is.  From the reset state (goalie at the
origin), the action component 100 displaces the goalie by 2 in one step,
far above the claimed per-step bound `move_scale = 0.1`. -/
theorem C4_counterexample :
    (stepEnv (reset 0 0) 100 0).state.goalieX - (reset 0 0).goalieX = 2 ∧
      ¬ |(stepEnv (reset 0 0) 100 0).state.goalieX - (reset 0 0).goalieX| ≤ 0.1 := by
  have h : (stepEnv (reset 0 0) 100 0).state.goalieX = 2 := by
    rw [stepEnv_goalieX]
    show clip ((0:ℝ) + 100 * 0.1) (-2.0) 2.0 = 2
    unfold clip
    rw [max_eq_left (by norm_num), min_eq_right (by norm_num)]
    norm_num
  have h0 : (reset 0 0).goalieX = 0 := rfl
  rw [h, h0]
  norm_num

/-- C4 amended: an out-of-range action is never rejected; the goalie
*position* (not the action) is clamped to the arena bounds after the raw
displacement `action * 0.1` is applied, so the per-step displacement is
bounded by 0.1 per axis only when the action already lies in [-1, 1]
(and the goalie starts inside the bounds). -/
theorem C4_amended (s : EnvState) (ax az : ℝ)
    (hax : |ax| ≤ 1) (haz : |az| ≤ 1)
    (hgx1 : -2.0 ≤ s.goalieX) (hgx2 : s.goalieX ≤ 2.0)
    (hgz1 : -1.5 ≤ s.goalieZ) (hgz2 : s.goalieZ ≤ 1.5) :
    |(stepEnv s ax az).state.goalieX - s.goalieX| ≤ 0.1 ∧
      |(stepEnv s ax az).state.goalieZ - s.goalieZ| ≤ 0.1 := by
  rw [stepEnv_goalieX, stepEnv_goalieZ]
  have hd : ∀ a : ℝ, |a| ≤ 1 → |a * 0.1| ≤ 0.1 := by
    intro a ha
    rw [abs_mul]
    calc |a| * |(0.1:ℝ)| ≤ 1 * |(0.1:ℝ)| :=
          mul_le_mul_of_nonneg_right ha (abs_nonneg _)
      _ = 0.1 := by norm_num
  exact ⟨le_trans (abs_clip_sub_le s.goalieX (ax * 0.1) _ _ hgx1 hgx2) (hd ax hax),
    le_trans (abs_clip_sub_le s.goalieZ (az * 0.1) _ _ hgz1 hgz2) (hd az haz)⟩

/-- Witness for the amended C4 at the reset state with action (1, 1). -/
theorem C4_amended_witness :
    (|(1:ℝ)| ≤ 1 ∧ -2.0 ≤ (reset 0 0).goalieX ∧ (reset 0 0).goalieX ≤ 2.0 ∧
        -1.5 ≤ (reset 0 0).goalieZ ∧ (reset 0 0).goalieZ ≤ 1.5) ∧
      (|(stepEnv (reset 0 0) 1 1).state.goalieX - (reset 0 0).goalieX| ≤ 0.1 ∧
        |(stepEnv (reset 0 0) 1 1).state.goalieZ - (reset 0 0).goalieZ| ≤ 0.1) :=
  ⟨⟨by norm_num, by norm_num [reset], by norm_num [reset],
      by norm_num [reset], by norm_num [reset]⟩,
    C4_amended (reset 0 0) 1 1 (by norm_num) (by norm_num)
      (by norm_num [reset]) (by norm_num [reset])
      (by norm_num [reset]) (by norm_num [reset])⟩

/-- C5 fails on the code: with zero actions from the deterministic reset
state (lateral draw 0), the puck's x coordinate never exceeds −1, so it
never passes 8; the episode's claimed MISS step never happens and the
run's 300-th step returns TIMEOUT with reward −10 instead (step 163,
the claimed crossing time, is still non-terminal). -/
theorem C5_counterexample :
    (runFrom (reset 0 0) zeroActs 300).puckX < -1 ∧
      (stepOutAt (reset 0 0) zeroActs 162).result = none ∧
      (stepOutAt (reset 0 0) zeroActs 299).result = some Outcome.timeout ∧
      (stepOutAt (reset 0 0) zeroActs 299).result ≠ some Outcome.miss ∧
      (stepOutAt (reset 0 0) zeroActs 299).reward = -10 := by
  refine ⟨(resetRun_puckX_bounds 0 0 zeroActs 300).2,
    (resetRun_stepOut_active 0 0 zeroActs 162 (by norm_num)).1,
    (resetRun_stepOut_timeout 0 0 zeroActs 299 (le_refl _)).1, ?_,
    (resetRun_stepOut_timeout 0 0 zeroActs 299 (le_refl _)).2.1⟩
  rw [(resetRun_stepOut_timeout 0 0 zeroActs 299 (le_refl _)).1]
  simp

/-- C5 amended: on the zero-action run from the deterministic reset
state, the puck's x coordinate does increase strictly monotonically, but
it stays below −1 forever (total travel is bounded by the friction
geometric series 2·0.02·Σ0.99ᵏ = 4 from x = −5), so it never exceeds 8;
the episode ends at the 300-th step with outcome TIMEOUT and reward −10. -/
theorem C5_amended :
    (∀ n, (runFrom (reset 0 0) zeroActs n).puckX <
        (runFrom (reset 0 0) zeroActs (n + 1)).puckX) ∧
      (∀ n, (runFrom (reset 0 0) zeroActs n).puckX < -1) ∧
      (stepOutAt (reset 0 0) zeroActs 299).result = some Outcome.timeout ∧
      (stepOutAt (reset 0 0) zeroActs 299).reward = -10 := by
  refine ⟨?_, fun n => (resetRun_puckX_bounds 0 0 zeroActs n).2,
    (resetRun_stepOut_timeout 0 0 zeroActs 299 (le_refl _)).1,
    (resetRun_stepOut_timeout 0 0 zeroActs 299 (le_refl _)).2.1⟩
  intro n
  rw [resetRun_puckX 0 0 zeroActs n, resetRun_puckX 0 0 zeroActs (n + 1)]
  have hp := q_pow_pos n
  have hs : (0.99:ℝ) ^ (n + 1) = 0.99 ^ n * 0.99 := pow_succ _ _
  nlinarith

/-- C6: the reward is exactly 50 on a MISS step, −200 on a GOAL step,
200 on a SAVE step and −10 on a TIMEOUT step (the terminal reward
replaces the shaping reward), and on a non-terminal step it is exactly
`max 0 (10 − distance(puck, goalie)) * 0.1` with the distance taken in
the post-update state. -/
theorem C6_reward_exactness (s : EnvState) (ax az : ℝ) :
    ((stepEnv s ax az).result = some Outcome.miss →
        (stepEnv s ax az).reward = 50) ∧
      ((stepEnv s ax az).result = some Outcome.goal →
        (stepEnv s ax az).reward = -200) ∧
      ((stepEnv s ax az).result = some Outcome.save →
        (stepEnv s ax az).reward = 200) ∧
      ((stepEnv s ax az).result = some Outcome.timeout →
        (stepEnv s ax az).reward = -10) ∧
      ((stepEnv s ax az).result = none →
        (stepEnv s ax az).reward =
          max 0 (10 - distPuckGoalie (stepEnv s ax az).state) * 0.1) := by
  unfold stepEnv distPuckGoalie
  simp only [ge_iff_le]
  split_ifs <;> simp

/-- Witness for C6 on a concrete TIMEOUT step (step counter 299 of 300). -/
theorem C6_reward_exactness_witness :
    (stepEnv ⟨0, 0, 0, 0, 0, 0, 299, 300⟩ 0 0).result = some Outcome.timeout ∧
      (stepEnv ⟨0, 0, 0, 0, 0, 0, 299, 300⟩ 0 0).reward = -10 :=
  ⟨(stepEnv_timeout ⟨0, 0, 0, 0, 0, 0, 299, 300⟩ 0 0 (by norm_num)).1,
    (C6_reward_exactness ⟨0, 0, 0, 0, 0, 0, 299, 300⟩ 0 0).2.2.2.1
      (stepEnv_timeout ⟨0, 0, 0, 0, 0, 0, 299, 300⟩ 0 0 (by norm_num)).1⟩

end NeuralRink
